import Mathlib

/-!
Verification of the gargoyle/garguile reexports shim.

The repository is a C shim that re-exposes macro-defined constants and
inline/macro functions of the Guile embedding library as ordinary linkable
symbols.  The shim itself lives in reexports.h / reexports.c (prefix
GARGOYLE), with a renamed sibling (prefix GARGUILE) and an older, smaller
gargoyle revision.  The host library (libguile) is not part of the
repository; its macros are modelled here from the spec's description of the
host runtime and marked as such.  Each shim function is embedded as a Lean
function whose body is, as in the C source, a single call into the host
model; the header/object symbol tables are embedded as explicit lists of
name/signature pairs.
-/

namespace Gargoyle

/-- Modelled from the spec: the host embedding library's universal tagged
value type (libguile's SCM, missing from the repository, which only calls
it).  One constructor per representative variant the spec lists: the two
canonical booleans, the empty list, the unbound sentinel, exact integers,
pairs, symbols, procedures, hooks, modules, classes and class instances. -/
inductive SCM where
  | boolT
  | boolF
  | eol
  | undefined
  | intVal (v : Int)
  | pairVal (car cdr : SCM)
  | symbolVal (id : Nat)
  | procVal (id : Nat)
  | hookVal (arity : Int) (id : Nat)
  | moduleVal (id : Nat)
  | classVal (id : Nat)
  | instVal (cls id : Nat)
  deriving DecidableEq, Repr

/-- Modelled from the spec: host macro SCM_BOOL_T, the canonical true value. -/
def SCM_BOOL_T : SCM := .boolT

/-- Modelled from the spec: host macro SCM_BOOL_F, the canonical false value. -/
def SCM_BOOL_F : SCM := .boolF

/-- Modelled from the spec: host macro SCM_EOL, the empty-list sentinel. -/
def SCM_EOL : SCM := .eol

/-- Modelled from the spec: host macro SCM_UNDEFINED, the unbound sentinel. -/
def SCM_UNDEFINED : SCM := .undefined

/-- Modelled from the spec: host macro SCM_F_DYNWIND_REWINDABLE, one of the
two unwind-protection flag bits; the concrete bit value is a placeholder. -/
def SCM_F_DYNWIND_REWINDABLE : Int := 1

/-- Modelled from the spec: host macro SCM_F_WIND_EXPLICITLY, the other
unwind-protection flag bit; the concrete bit value is a placeholder. -/
def SCM_F_WIND_EXPLICITLY : Int := 2

/-- Modelled from the spec: host macro scm_is_false, which holds exactly on
the canonical false value (the spec's truthiness scenario: only the
canonical false value is untruthy). -/
def scm_is_false (x : SCM) : Int :=
  if x = SCM_BOOL_F then 1 else 0

/-- Modelled from the spec: host macro scm_is_true, the C negation of
scm_is_false. -/
def scm_is_true (x : SCM) : Int :=
  if scm_is_false x = 0 then 1 else 0

/-- Modelled from the spec: host macro SCM_UNBNDP, the is-unbound test,
which holds exactly on the unbound sentinel. -/
def SCM_UNBNDP (x : SCM) : Int :=
  if x = SCM_UNDEFINED then 1 else 0

/-- Modelled from the spec: host macro SCM_HOOKP, the is-a-hook test. -/
def SCM_HOOKP (x : SCM) : Int :=
  match x with
  | .hookVal _ _ => 1
  | _ => 0

/-- Modelled from the spec: host macro SCM_HOOK_ARITY; on values outside
the hook domain the host macro's behavior is undefined, modelled as 0. -/
def SCM_HOOK_ARITY (x : SCM) : Int :=
  match x with
  | .hookVal a _ => a
  | _ => 0

/-- Modelled from the spec: host macro SCM_MODULEP, the is-a-module test. -/
def SCM_MODULEP (x : SCM) : Int :=
  match x with
  | .moduleVal _ => 1
  | _ => 0

/-- Modelled from the spec: host macro SCM_IS_A_P, the
is-an-instance-of-class test. -/
def SCM_IS_A_P (v ty : SCM) : Int :=
  match v, ty with
  | .instVal c _, .classVal d => if c = d then 1 else 0
  | _, _ => 0

/-- Modelled from the spec: the host runtime's own error channel for the
integer conversions (a non-local abort in C, modelled as an Except error). -/
inductive GuileError where
  | wrongType
  | outOfRange
  deriving DecidableEq, Repr

/-- Modelled from the spec: host function scm_from_uintptr_t, injecting an
unsigned pointer-sized integer as a Scheme exact integer. -/
def scm_from_uintptr_t (i : Nat) : SCM := .intVal (i : Int)

/-- Modelled from the spec: host function scm_from_intptr_t, injecting a
signed pointer-sized integer as a Scheme exact integer. -/
def scm_from_intptr_t (i : Int) : SCM := .intVal i

/-- Modelled from the spec: host function scm_to_uintptr_t for a platform
whose pointers have w bits; raises the host's out-of-range error outside
the uintptr_t range and a wrong-type error on non-integers. -/
def scm_to_uintptr_t (w : Nat) (x : SCM) : Except GuileError Nat :=
  match x with
  | .intVal v => if 0 ≤ v ∧ v < (2 : Int) ^ w then .ok v.toNat else .error .outOfRange
  | _ => .error .wrongType

/-- Modelled from the spec: host function scm_to_intptr_t for a platform
whose pointers have w bits; raises the host's out-of-range error outside
the intptr_t range and a wrong-type error on non-integers. -/
def scm_to_intptr_t (w : Nat) (x : SCM) : Except GuileError Int :=
  match x with
  | .intVal v =>
      if -((2 : Int) ^ (w - 1)) ≤ v ∧ v < (2 : Int) ^ (w - 1) then .ok v
      else .error .outOfRange
  | _ => .error .wrongType

namespace Reexports

/-- Exported constant from reexports.c: SCM_BOOL_T under the gargoyle prefix. -/
def GARGOYLE_REEXPORTS_SCM_BOOL_T : SCM := SCM_BOOL_T

/-- Exported constant from reexports.c: SCM_BOOL_F under the gargoyle prefix. -/
def GARGOYLE_REEXPORTS_SCM_BOOL_F : SCM := SCM_BOOL_F

/-- Exported constant from reexports.c: SCM_EOL under the gargoyle prefix. -/
def GARGOYLE_REEXPORTS_SCM_EOL : SCM := SCM_EOL

/-- Exported constant from reexports.c: SCM_UNDEFINED under the gargoyle prefix. -/
def GARGOYLE_REEXPORTS_SCM_UNDEFINED : SCM := SCM_UNDEFINED

/-- Exported constant from reexports.c: SCM_F_DYNWIND_REWINDABLE under the
gargoyle prefix. -/
def GARGOYLE_REEXPORTS_SCM_F_DYNWIND_REWINDABLE : Int := SCM_F_DYNWIND_REWINDABLE

/-- Exported constant from reexports.c: SCM_F_WIND_EXPLICITLY under the
gargoyle prefix. -/
def GARGOYLE_REEXPORTS_SCM_F_WIND_EXPLICITLY : Int := SCM_F_WIND_EXPLICITLY

/-- Wrapper from reexports.c: body is the single call scm_is_true(b). -/
def gargoyle_reexports_scm_is_true (b : SCM) : Int := scm_is_true b

/-- Wrapper from reexports.c: body is the single call scm_is_false(b). -/
def gargoyle_reexports_scm_is_false (b : SCM) : Int := scm_is_false b

/-- Wrapper from reexports.c: body is the single call SCM_UNBNDP(scm). -/
def GARGOYLE_REEXPORTS_SCM_UNBNDP (scm : SCM) : Int := SCM_UNBNDP scm

/-- Wrapper from reexports.c: body is the single call scm_to_uintptr_t(scm);
the platform pointer width w is an ambient compile-time parameter. -/
def gargoyle_reexports_scm_to_uintptr_t (w : Nat) (scm : SCM) : Except GuileError Nat :=
  scm_to_uintptr_t w scm

/-- Wrapper from reexports.c: body is the single call scm_to_intptr_t(scm). -/
def gargoyle_reexports_scm_to_intptr_t (w : Nat) (scm : SCM) : Except GuileError Int :=
  scm_to_intptr_t w scm

/-- Wrapper from reexports.c: body is the single call scm_from_uintptr_t(i). -/
def gargoyle_reexports_scm_from_uintptr_t (i : Nat) : SCM := scm_from_uintptr_t i

/-- Wrapper from reexports.c: body is the single call scm_from_intptr_t(i). -/
def gargoyle_reexports_scm_from_intptr_t (i : Int) : SCM := scm_from_intptr_t i

/-- State-passing embedding of the reexports.c truthiness wrapper: the C
body touches no mutable state, so in a store-passing semantics over an
arbitrary world type it returns the store unchanged. -/
def gargoyle_reexports_scm_is_true_run (World : Type) (σ : World) (b : SCM) : World × Int :=
  (σ, scm_is_true b)

/-- State-passing embedding of the reexports.c falsity wrapper. -/
def gargoyle_reexports_scm_is_false_run (World : Type) (σ : World) (b : SCM) : World × Int :=
  (σ, scm_is_false b)

/-- State-passing embedding of the reexports.c is-unbound wrapper. -/
def GARGOYLE_REEXPORTS_SCM_UNBNDP_run (World : Type) (σ : World) (b : SCM) : World × Int :=
  (σ, SCM_UNBNDP b)

end Reexports

namespace Garguile

/-- Exported constant from the garguile revision: SCM_BOOL_T. -/
def GARGUILE_REEXPORTS_SCM_BOOL_T : SCM := SCM_BOOL_T

/-- Exported constant from the garguile revision: SCM_BOOL_F. -/
def GARGUILE_REEXPORTS_SCM_BOOL_F : SCM := SCM_BOOL_F

/-- Exported constant from the garguile revision: SCM_EOL. -/
def GARGUILE_REEXPORTS_SCM_EOL : SCM := SCM_EOL

/-- Exported constant from the garguile revision: SCM_UNDEFINED. -/
def GARGUILE_REEXPORTS_SCM_UNDEFINED : SCM := SCM_UNDEFINED

/-- Exported constant from the garguile revision: SCM_F_DYNWIND_REWINDABLE. -/
def GARGUILE_REEXPORTS_SCM_F_DYNWIND_REWINDABLE : Int := SCM_F_DYNWIND_REWINDABLE

/-- Exported constant from the garguile revision: SCM_F_WIND_EXPLICITLY. -/
def GARGUILE_REEXPORTS_SCM_F_WIND_EXPLICITLY : Int := SCM_F_WIND_EXPLICITLY

/-- Wrapper from the garguile revision: single call scm_is_true(b). -/
def garguile_reexports_scm_is_true (b : SCM) : Int := scm_is_true b

/-- Wrapper from the garguile revision: single call scm_is_false(b). -/
def garguile_reexports_scm_is_false (b : SCM) : Int := scm_is_false b

/-- Wrapper from the garguile revision: single call SCM_HOOK_ARITY(hook). -/
def GARGUILE_REEXPORTS_SCM_HOOK_ARITY (hook : SCM) : Int := SCM_HOOK_ARITY hook

/-- Wrapper from the garguile revision: single call SCM_HOOKP(hook). -/
def GARGUILE_REEXPORTS_SCM_HOOKP (hook : SCM) : Int := SCM_HOOKP hook

/-- Wrapper from the garguile revision: single call SCM_MODULEP(obj). -/
def GARGUILE_REEXPORTS_SCM_MODULEP (obj : SCM) : Int := SCM_MODULEP obj

/-- Wrapper from the garguile revision: single call SCM_IS_A_P(val, ty). -/
def GARGUILE_REEXPORTS_SCM_IS_A_P (val ty : SCM) : Int := SCM_IS_A_P val ty

/-- Wrapper from the garguile revision: single call SCM_UNBNDP(scm). -/
def GARGUILE_REEXPORTS_SCM_UNBNDP (scm : SCM) : Int := SCM_UNBNDP scm

/-- Wrapper from the garguile revision: single call scm_to_uintptr_t(scm). -/
def garguile_reexports_scm_to_uintptr_t (w : Nat) (scm : SCM) : Except GuileError Nat :=
  scm_to_uintptr_t w scm

/-- Wrapper from the garguile revision: single call scm_to_intptr_t(scm). -/
def garguile_reexports_scm_to_intptr_t (w : Nat) (scm : SCM) : Except GuileError Int :=
  scm_to_intptr_t w scm

/-- Wrapper from the garguile revision: single call scm_from_uintptr_t(i). -/
def garguile_reexports_scm_from_uintptr_t (i : Nat) : SCM := scm_from_uintptr_t i

/-- Wrapper from the garguile revision: single call scm_from_intptr_t(i). -/
def garguile_reexports_scm_from_intptr_t (i : Int) : SCM := scm_from_intptr_t i

end Garguile

namespace OldGargoyle

/-- Exported constant from the older gargoyle revision: SCM_BOOL_T. -/
def GARGOYLE_REEXPORTS_SCM_BOOL_T : SCM := SCM_BOOL_T

/-- Exported constant from the older gargoyle revision: SCM_BOOL_F. -/
def GARGOYLE_REEXPORTS_SCM_BOOL_F : SCM := SCM_BOOL_F

/-- Exported constant from the older gargoyle revision: SCM_UNDEFINED. -/
def GARGOYLE_REEXPORTS_SCM_UNDEFINED : SCM := SCM_UNDEFINED

/-- Wrapper from the older gargoyle revision: the C return type is _Bool,
so the int result of scm_is_true(b) is normalized to a boolean (nonzero
becomes true). -/
def gargoyle_reexports_scm_is_true (b : SCM) : Bool := scm_is_true b != 0

/-- Wrapper from the older gargoyle revision: _Bool of SCM_UNBNDP(scm). -/
def GARGOYLE_REEXPORTS_SCM_UNBNDP (scm : SCM) : Bool := SCM_UNBNDP scm != 0

/-- Wrapper from the older gargoyle revision: single call scm_to_uintptr_t(scm). -/
def gargoyle_reexports_scm_to_uintptr_t (w : Nat) (scm : SCM) : Except GuileError Nat :=
  scm_to_uintptr_t w scm

/-- Wrapper from the older gargoyle revision: single call scm_to_intptr_t(scm). -/
def gargoyle_reexports_scm_to_intptr_t (w : Nat) (scm : SCM) : Except GuileError Int :=
  scm_to_intptr_t w scm

/-- Wrapper from the older gargoyle revision: single call scm_from_uintptr_t(i). -/
def gargoyle_reexports_scm_from_uintptr_t (i : Nat) : SCM := scm_from_uintptr_t i

/-- Wrapper from the older gargoyle revision: single call scm_from_intptr_t(i). -/
def gargoyle_reexports_scm_from_intptr_t (i : Int) : SCM := scm_from_intptr_t i

end OldGargoyle

/-- C value types appearing in the shim's declarations: the opaque tagged
value, int, _Bool, uintptr_t and intptr_t. -/
inductive CType where
  | scm
  | cint
  | cbool
  | cuintptr
  | cintptr
  deriving DecidableEq, Repr

/-- One externally visible symbol of a header or compiled object: its name,
whether it is a function, its argument types (empty for constants) and its
value/return type. -/
structure CSymbol where
  name : String
  isFn : Bool
  args : List CType
  ret : CType
  deriving DecidableEq, Repr

/-- The symbols declared by reexports.h, in header order. -/
def gargoyleHeaderDeclared : List CSymbol :=
  [ ⟨"GARGOYLE_REEXPORTS_SCM_BOOL_T", false, [], .scm⟩,
    ⟨"GARGOYLE_REEXPORTS_SCM_BOOL_F", false, [], .scm⟩,
    ⟨"GARGOYLE_REEXPORTS_SCM_EOL", false, [], .scm⟩,
    ⟨"GARGOYLE_REEXPORTS_SCM_UNDEFINED", false, [], .scm⟩,
    ⟨"GARGOYLE_REEXPORTS_SCM_F_DYNWIND_REWINDABLE", false, [], .cint⟩,
    ⟨"GARGOYLE_REEXPORTS_SCM_F_WIND_EXPLICITLY", false, [], .cint⟩,
    ⟨"gargoyle_reexports_scm_is_true", true, [.scm], .cint⟩,
    ⟨"gargoyle_reexports_scm_is_false", true, [.scm], .cint⟩,
    ⟨"GARGOYLE_REEXPORTS_SCM_HOOK_ARITY", true, [.scm], .cint⟩,
    ⟨"GARGOYLE_REEXPORTS_SCM_IS_A_P", true, [.scm, .scm], .cint⟩,
    ⟨"GARGOYLE_REEXPORTS_SCM_HOOKP", true, [.scm], .cint⟩,
    ⟨"GARGOYLE_REEXPORTS_SCM_MODULEP", true, [.scm], .cint⟩,
    ⟨"GARGOYLE_REEXPORTS_SCM_UNBNDP", true, [.scm], .cint⟩,
    ⟨"gargoyle_reexports_scm_to_uintptr_t", true, [.scm], .cuintptr⟩,
    ⟨"gargoyle_reexports_scm_to_intptr_t", true, [.scm], .cintptr⟩,
    ⟨"gargoyle_reexports_scm_from_uintptr_t", true, [.cuintptr], .scm⟩,
    ⟨"gargoyle_reexports_scm_from_intptr_t", true, [.cintptr], .scm⟩ ]

/-- The symbols defined by reexports.c, in file order. -/
def gargoyleShimDefined : List CSymbol :=
  [ ⟨"GARGOYLE_REEXPORTS_SCM_BOOL_T", false, [], .scm⟩,
    ⟨"GARGOYLE_REEXPORTS_SCM_BOOL_F", false, [], .scm⟩,
    ⟨"GARGOYLE_REEXPORTS_SCM_EOL", false, [], .scm⟩,
    ⟨"GARGOYLE_REEXPORTS_SCM_UNDEFINED", false, [], .scm⟩,
    ⟨"GARGOYLE_REEXPORTS_SCM_F_DYNWIND_REWINDABLE", false, [], .cint⟩,
    ⟨"GARGOYLE_REEXPORTS_SCM_F_WIND_EXPLICITLY", false, [], .cint⟩,
    ⟨"gargoyle_reexports_scm_is_true", true, [.scm], .cint⟩,
    ⟨"gargoyle_reexports_scm_is_false", true, [.scm], .cint⟩,
    ⟨"GARGOYLE_REEXPORTS_SCM_UNBNDP", true, [.scm], .cint⟩,
    ⟨"gargoyle_reexports_scm_to_uintptr_t", true, [.scm], .cuintptr⟩,
    ⟨"gargoyle_reexports_scm_to_intptr_t", true, [.scm], .cintptr⟩,
    ⟨"gargoyle_reexports_scm_from_uintptr_t", true, [.cuintptr], .scm⟩,
    ⟨"gargoyle_reexports_scm_from_intptr_t", true, [.cintptr], .scm⟩ ]

/-- The surface of the newer (garguile) revision with the project prefix
stripped, in file order. -/
def garguileSurface : List CSymbol :=
  [ ⟨"SCM_BOOL_T", false, [], .scm⟩,
    ⟨"SCM_BOOL_F", false, [], .scm⟩,
    ⟨"SCM_EOL", false, [], .scm⟩,
    ⟨"SCM_UNDEFINED", false, [], .scm⟩,
    ⟨"SCM_F_DYNWIND_REWINDABLE", false, [], .cint⟩,
    ⟨"SCM_F_WIND_EXPLICITLY", false, [], .cint⟩,
    ⟨"scm_is_true", true, [.scm], .cint⟩,
    ⟨"scm_is_false", true, [.scm], .cint⟩,
    ⟨"SCM_HOOK_ARITY", true, [.scm], .cint⟩,
    ⟨"SCM_HOOKP", true, [.scm], .cint⟩,
    ⟨"SCM_MODULEP", true, [.scm], .cint⟩,
    ⟨"SCM_IS_A_P", true, [.scm, .scm], .cint⟩,
    ⟨"SCM_UNBNDP", true, [.scm], .cint⟩,
    ⟨"scm_to_uintptr_t", true, [.scm], .cuintptr⟩,
    ⟨"scm_to_intptr_t", true, [.scm], .cintptr⟩,
    ⟨"scm_from_uintptr_t", true, [.cuintptr], .scm⟩,
    ⟨"scm_from_intptr_t", true, [.cintptr], .scm⟩ ]

/-- The surface of the older gargoyle revision with the project prefix
stripped, in file order.  Its two predicate wrappers return _Bool. -/
def oldGargoyleSurface : List CSymbol :=
  [ ⟨"SCM_BOOL_T", false, [], .scm⟩,
    ⟨"SCM_BOOL_F", false, [], .scm⟩,
    ⟨"SCM_UNDEFINED", false, [], .scm⟩,
    ⟨"scm_is_true", true, [.scm], .cbool⟩,
    ⟨"SCM_UNBNDP", true, [.scm], .cbool⟩,
    ⟨"scm_to_uintptr_t", true, [.scm], .cuintptr⟩,
    ⟨"scm_to_intptr_t", true, [.scm], .cintptr⟩,
    ⟨"scm_from_uintptr_t", true, [.cuintptr], .scm⟩,
    ⟨"scm_from_intptr_t", true, [.cintptr], .scm⟩ ]

/-- The symbols the spec says the older revision lacks: the hook-arity,
hook, module and class predicates and the empty-list and unwind-flag
constants. -/
def specClaimedDiff : List String :=
  [ "SCM_HOOK_ARITY", "SCM_HOOKP", "SCM_MODULEP", "SCM_IS_A_P",
    "SCM_EOL", "SCM_F_DYNWIND_REWINDABLE", "SCM_F_WIND_EXPLICITLY" ]

/-- Definition following the spec's words for the variant-difference claim:
every symbol of the older revision appears in the newer one with an
identical signature, and every symbol of the newer revision is either
(by name) in the older one or among exactly the hook-arity, hook, module
and class predicates and the empty-list and unwind-flag constants. -/
def variantDiffClaim : Prop :=
  (∀ s ∈ oldGargoyleSurface, s ∈ garguileSurface) ∧
  (∀ s ∈ garguileSurface,
      s.name ∈ oldGargoyleSurface.map CSymbol.name ∨ s.name ∈ specClaimedDiff)

instance : Decidable variantDiffClaim := by
  unfold variantDiffClaim
  infer_instance

/-- C1: every exported predicate/conversion wrapper, in both prefix
variants, returns exactly the value the underlying host-library macro or
inline construct returns on the same arguments, with no additional
validation or transformation. -/
theorem wrapper_transparency :
    (∀ b, Reexports.gargoyle_reexports_scm_is_true b = scm_is_true b) ∧
    (∀ b, Reexports.gargoyle_reexports_scm_is_false b = scm_is_false b) ∧
    (∀ b, Reexports.GARGOYLE_REEXPORTS_SCM_UNBNDP b = SCM_UNBNDP b) ∧
    (∀ w b, Reexports.gargoyle_reexports_scm_to_uintptr_t w b = scm_to_uintptr_t w b) ∧
    (∀ w b, Reexports.gargoyle_reexports_scm_to_intptr_t w b = scm_to_intptr_t w b) ∧
    (∀ i, Reexports.gargoyle_reexports_scm_from_uintptr_t i = scm_from_uintptr_t i) ∧
    (∀ i, Reexports.gargoyle_reexports_scm_from_intptr_t i = scm_from_intptr_t i) ∧
    (∀ b, Garguile.garguile_reexports_scm_is_true b = scm_is_true b) ∧
    (∀ b, Garguile.garguile_reexports_scm_is_false b = scm_is_false b) ∧
    (∀ b, Garguile.GARGUILE_REEXPORTS_SCM_HOOK_ARITY b = SCM_HOOK_ARITY b) ∧
    (∀ b, Garguile.GARGUILE_REEXPORTS_SCM_HOOKP b = SCM_HOOKP b) ∧
    (∀ b, Garguile.GARGUILE_REEXPORTS_SCM_MODULEP b = SCM_MODULEP b) ∧
    (∀ v ty, Garguile.GARGUILE_REEXPORTS_SCM_IS_A_P v ty = SCM_IS_A_P v ty) ∧
    (∀ b, Garguile.GARGUILE_REEXPORTS_SCM_UNBNDP b = SCM_UNBNDP b) ∧
    (∀ w b, Garguile.garguile_reexports_scm_to_uintptr_t w b = scm_to_uintptr_t w b) ∧
    (∀ w b, Garguile.garguile_reexports_scm_to_intptr_t w b = scm_to_intptr_t w b) ∧
    (∀ i, Garguile.garguile_reexports_scm_from_uintptr_t i = scm_from_uintptr_t i) ∧
    (∀ i, Garguile.garguile_reexports_scm_from_intptr_t i = scm_from_intptr_t i) :=
  ⟨fun _ => rfl, fun _ => rfl, fun _ => rfl, fun _ _ => rfl, fun _ _ => rfl,
   fun _ => rfl, fun _ => rfl, fun _ => rfl, fun _ => rfl, fun _ => rfl,
   fun _ => rfl, fun _ => rfl, fun _ _ => rfl, fun _ => rfl, fun _ _ => rfl,
   fun _ _ => rfl, fun _ => rfl, fun _ => rfl⟩

/-- C2: for every pointer-sized integer, signed or unsigned, zero and the
range extrema included, converting to a host value and back succeeds and
reproduces a value whose injection is the same host-runtime value, so that
from_int (to_int (from_int n)) equals from_int n. -/
theorem conversion_roundtrip (w n : Nat) (i : Int)
    (hn : (n : Int) < (2 : Int) ^ w)
    (hlo : -((2 : Int) ^ (w - 1)) ≤ i) (hhi : i < (2 : Int) ^ (w - 1)) :
    (∃ m, Reexports.gargoyle_reexports_scm_to_uintptr_t w
            (Reexports.gargoyle_reexports_scm_from_uintptr_t n) = Except.ok m ∧
          Reexports.gargoyle_reexports_scm_from_uintptr_t m =
            Reexports.gargoyle_reexports_scm_from_uintptr_t n) ∧
    (∃ j, Reexports.gargoyle_reexports_scm_to_intptr_t w
            (Reexports.gargoyle_reexports_scm_from_intptr_t i) = Except.ok j ∧
          Reexports.gargoyle_reexports_scm_from_intptr_t j =
            Reexports.gargoyle_reexports_scm_from_intptr_t i) := by
  refine ⟨⟨n, ?_, rfl⟩, ⟨i, ?_, rfl⟩⟩
  · simp [Reexports.gargoyle_reexports_scm_to_uintptr_t,
      Reexports.gargoyle_reexports_scm_from_uintptr_t,
      scm_to_uintptr_t, scm_from_uintptr_t, hn, Int.natCast_nonneg]
  · simp [Reexports.gargoyle_reexports_scm_to_intptr_t,
      Reexports.gargoyle_reexports_scm_from_intptr_t,
      scm_to_intptr_t, scm_from_intptr_t, hlo, hhi]

/-- Witness for the round-trip theorem at 64-bit pointer width with the
unsigned maximum and the signed minimum. -/
theorem conversion_roundtrip_witness :
    (((2 ^ 64 - 1 : Nat) : Int) < (2 : Int) ^ 64 ∧
     -((2 : Int) ^ (64 - 1)) ≤ (-(2 ^ 63) : Int) ∧
     (-(2 ^ 63) : Int) < (2 : Int) ^ (64 - 1)) ∧
    ((∃ m, Reexports.gargoyle_reexports_scm_to_uintptr_t 64
            (Reexports.gargoyle_reexports_scm_from_uintptr_t (2 ^ 64 - 1)) = Except.ok m ∧
          Reexports.gargoyle_reexports_scm_from_uintptr_t m =
            Reexports.gargoyle_reexports_scm_from_uintptr_t (2 ^ 64 - 1)) ∧
     (∃ j, Reexports.gargoyle_reexports_scm_to_intptr_t 64
            (Reexports.gargoyle_reexports_scm_from_intptr_t (-(2 ^ 63))) = Except.ok j ∧
          Reexports.gargoyle_reexports_scm_from_intptr_t j =
            Reexports.gargoyle_reexports_scm_from_intptr_t (-(2 ^ 63)))) :=
  ⟨⟨by norm_num, by norm_num, by norm_num⟩,
   conversion_roundtrip 64 (2 ^ 64 - 1) (-(2 ^ 63))
     (by norm_num) (by norm_num) (by norm_num)⟩

/-- C3: the header reexports.h declares the hook-arity, instance-of-class,
is-a-hook and is-a-module wrappers, but the shim reexports.c defines no
symbol with any of those names, so those four declared symbols are not
available at link time; every other declared symbol is defined with a
matching signature. -/
theorem header_link_divergence :
    ((⟨"GARGOYLE_REEXPORTS_SCM_HOOK_ARITY", true, [.scm], .cint⟩ : CSymbol)
        ∈ gargoyleHeaderDeclared ∧
      "GARGOYLE_REEXPORTS_SCM_HOOK_ARITY" ∉ gargoyleShimDefined.map CSymbol.name) ∧
    ((⟨"GARGOYLE_REEXPORTS_SCM_IS_A_P", true, [.scm, .scm], .cint⟩ : CSymbol)
        ∈ gargoyleHeaderDeclared ∧
      "GARGOYLE_REEXPORTS_SCM_IS_A_P" ∉ gargoyleShimDefined.map CSymbol.name) ∧
    ((⟨"GARGOYLE_REEXPORTS_SCM_HOOKP", true, [.scm], .cint⟩ : CSymbol)
        ∈ gargoyleHeaderDeclared ∧
      "GARGOYLE_REEXPORTS_SCM_HOOKP" ∉ gargoyleShimDefined.map CSymbol.name) ∧
    ((⟨"GARGOYLE_REEXPORTS_SCM_MODULEP", true, [.scm], .cint⟩ : CSymbol)
        ∈ gargoyleHeaderDeclared ∧
      "GARGOYLE_REEXPORTS_SCM_MODULEP" ∉ gargoyleShimDefined.map CSymbol.name) ∧
    (∀ s ∈ gargoyleHeaderDeclared,
        s.name ∉ ["GARGOYLE_REEXPORTS_SCM_HOOK_ARITY", "GARGOYLE_REEXPORTS_SCM_IS_A_P",
                  "GARGOYLE_REEXPORTS_SCM_HOOKP", "GARGOYLE_REEXPORTS_SCM_MODULEP"] →
          s ∈ gargoyleShimDefined) := by
  decide

/-- C4 counterexample: the older revision does not lack exactly the
hook-arity, hook, module and class predicates and the empty-list and
unwind-flag constants: the newer revision also adds the falsity wrapper,
and the shared truthiness wrapper changes its return type from _Bool to
int, so the surfaces are not otherwise signature-identical. -/
theorem variant_diff_claim_false : ¬ variantDiffClaim := by
  decide

/-- C4 amended: the older revision's surface is a strict subset of the
newer one's by name; the newer revision additionally exposes exactly the
falsity wrapper on top of the spec's list; shared symbols agree on
function-ness and argument types, with identical return types except that
the truthiness and is-unbound predicates return _Bool in the older
revision and int in the newer; and the shared operations have the same
semantics. -/
theorem variant_subset_amended :
    (∀ s ∈ oldGargoyleSurface, s.name ∈ garguileSurface.map CSymbol.name) ∧
    oldGargoyleSurface.length < garguileSurface.length ∧
    ("scm_is_false" ∈ garguileSurface.map CSymbol.name ∧
      "scm_is_false" ∉ oldGargoyleSurface.map CSymbol.name) ∧
    (∀ s ∈ garguileSurface,
        s.name ∈ oldGargoyleSurface.map CSymbol.name ∨
        s.name ∈ "scm_is_false" :: specClaimedDiff) ∧
    (∀ x ∈ "scm_is_false" :: specClaimedDiff,
        x ∈ garguileSurface.map CSymbol.name ∧
        x ∉ oldGargoyleSurface.map CSymbol.name) ∧
    (∀ s ∈ oldGargoyleSurface, ∀ t ∈ garguileSurface, s.name = t.name →
        s.isFn = t.isFn ∧ s.args = t.args ∧
        (s.ret = t.ret ∨ (s.ret = CType.cbool ∧ t.ret = CType.cint ∧
          (s.name = "scm_is_true" ∨ s.name = "SCM_UNBNDP")))) ∧
    (∀ b, (OldGargoyle.gargoyle_reexports_scm_is_true b = true ↔
            Garguile.garguile_reexports_scm_is_true b ≠ 0) ∧
          (OldGargoyle.GARGOYLE_REEXPORTS_SCM_UNBNDP b = true ↔
            Garguile.GARGUILE_REEXPORTS_SCM_UNBNDP b ≠ 0)) ∧
    (∀ w b, OldGargoyle.gargoyle_reexports_scm_to_uintptr_t w b =
        Garguile.garguile_reexports_scm_to_uintptr_t w b) ∧
    (∀ w b, OldGargoyle.gargoyle_reexports_scm_to_intptr_t w b =
        Garguile.garguile_reexports_scm_to_intptr_t w b) ∧
    (∀ i, OldGargoyle.gargoyle_reexports_scm_from_uintptr_t i =
        Garguile.garguile_reexports_scm_from_uintptr_t i) ∧
    (∀ i, OldGargoyle.gargoyle_reexports_scm_from_intptr_t i =
        Garguile.garguile_reexports_scm_from_intptr_t i) ∧
    (OldGargoyle.GARGOYLE_REEXPORTS_SCM_BOOL_T = Garguile.GARGUILE_REEXPORTS_SCM_BOOL_T ∧
     OldGargoyle.GARGOYLE_REEXPORTS_SCM_BOOL_F = Garguile.GARGUILE_REEXPORTS_SCM_BOOL_F ∧
     OldGargoyle.GARGOYLE_REEXPORTS_SCM_UNDEFINED = Garguile.GARGUILE_REEXPORTS_SCM_UNDEFINED) := by
  refine ⟨by decide, by decide, by decide, by decide, by decide, by decide,
    ?_, fun _ _ => rfl, fun _ _ => rfl, fun _ => rfl, fun _ => rfl, rfl, rfl, rfl⟩
  intro b
  constructor
  · simp [OldGargoyle.gargoyle_reexports_scm_is_true,
      Garguile.garguile_reexports_scm_is_true, bne_iff_ne]
  · simp [OldGargoyle.GARGOYLE_REEXPORTS_SCM_UNBNDP,
      Garguile.GARGUILE_REEXPORTS_SCM_UNBNDP, bne_iff_ne]

/-- C5: the truthiness wrapper returns nonzero on the canonical true value
and zero on the canonical false value, and the is-unbound wrapper returns
nonzero on the unbound sentinel. -/
theorem canonical_truthiness :
    Reexports.gargoyle_reexports_scm_is_true Reexports.GARGOYLE_REEXPORTS_SCM_BOOL_T ≠ 0 ∧
    Reexports.gargoyle_reexports_scm_is_true Reexports.GARGOYLE_REEXPORTS_SCM_BOOL_F = 0 ∧
    Reexports.GARGOYLE_REEXPORTS_SCM_UNBNDP Reexports.GARGOYLE_REEXPORTS_SCM_UNDEFINED ≠ 0 := by
  decide

/-- C6: every exported constant, in all three revisions, equals the host
library's corresponding macro-defined value, with no computation beyond
the definition itself. -/
theorem constants_forwarded :
    Reexports.GARGOYLE_REEXPORTS_SCM_BOOL_T = SCM_BOOL_T ∧
    Reexports.GARGOYLE_REEXPORTS_SCM_BOOL_F = SCM_BOOL_F ∧
    Reexports.GARGOYLE_REEXPORTS_SCM_EOL = SCM_EOL ∧
    Reexports.GARGOYLE_REEXPORTS_SCM_UNDEFINED = SCM_UNDEFINED ∧
    Reexports.GARGOYLE_REEXPORTS_SCM_F_DYNWIND_REWINDABLE = SCM_F_DYNWIND_REWINDABLE ∧
    Reexports.GARGOYLE_REEXPORTS_SCM_F_WIND_EXPLICITLY = SCM_F_WIND_EXPLICITLY ∧
    Garguile.GARGUILE_REEXPORTS_SCM_BOOL_T = SCM_BOOL_T ∧
    Garguile.GARGUILE_REEXPORTS_SCM_BOOL_F = SCM_BOOL_F ∧
    Garguile.GARGUILE_REEXPORTS_SCM_EOL = SCM_EOL ∧
    Garguile.GARGUILE_REEXPORTS_SCM_UNDEFINED = SCM_UNDEFINED ∧
    Garguile.GARGUILE_REEXPORTS_SCM_F_DYNWIND_REWINDABLE = SCM_F_DYNWIND_REWINDABLE ∧
    Garguile.GARGUILE_REEXPORTS_SCM_F_WIND_EXPLICITLY = SCM_F_WIND_EXPLICITLY ∧
    OldGargoyle.GARGOYLE_REEXPORTS_SCM_BOOL_T = SCM_BOOL_T ∧
    OldGargoyle.GARGOYLE_REEXPORTS_SCM_BOOL_F = SCM_BOOL_F ∧
    OldGargoyle.GARGOYLE_REEXPORTS_SCM_UNDEFINED = SCM_UNDEFINED :=
  ⟨rfl, rfl, rfl, rfl, rfl, rfl, rfl, rfl, rfl, rfl, rfl, rfl, rfl, rfl, rfl⟩

/-- C7: the predicate wrappers (truthiness, falsity, is-unbound, hook,
module and instance-of-class tests) are total plain-integer functions with
no error channel, while the integer-conversion wrappers produce an error
exactly when the host conversion does, the very same error value: the shim
neither catches, translates, nor adds an error of its own. -/
theorem error_transparency :
    (∀ w scm e, scm_to_uintptr_t w scm = Except.error e ↔
        Reexports.gargoyle_reexports_scm_to_uintptr_t w scm = Except.error e) ∧
    (∀ w scm e, scm_to_intptr_t w scm = Except.error e ↔
        Reexports.gargoyle_reexports_scm_to_intptr_t w scm = Except.error e) ∧
    (∀ b, Reexports.gargoyle_reexports_scm_is_true b = scm_is_true b ∧
          Reexports.gargoyle_reexports_scm_is_false b = scm_is_false b ∧
          Reexports.GARGOYLE_REEXPORTS_SCM_UNBNDP b = SCM_UNBNDP b ∧
          Garguile.GARGUILE_REEXPORTS_SCM_HOOKP b = SCM_HOOKP b ∧
          Garguile.GARGUILE_REEXPORTS_SCM_MODULEP b = SCM_MODULEP b) ∧
    (∀ v ty, Garguile.GARGUILE_REEXPORTS_SCM_IS_A_P v ty = SCM_IS_A_P v ty) :=
  ⟨fun _ _ _ => Iff.rfl, fun _ _ _ => Iff.rfl,
   fun _ => ⟨rfl, rfl, rfl, rfl, rfl⟩, fun _ _ => rfl⟩

/-- C8: in a store-passing semantics over an arbitrary world type, each
predicate wrapper leaves the store unchanged, computes the same pure
result as the stateless wrapper, and its result does not depend on the
store, so two calls on the same argument return the same result. -/
theorem predicate_frame :
    ∀ (World : Type) (σ τ : World) (b : SCM),
      Reexports.gargoyle_reexports_scm_is_true_run World σ b =
        (σ, Reexports.gargoyle_reexports_scm_is_true b) ∧
      (Reexports.gargoyle_reexports_scm_is_true_run World σ b).2 =
        (Reexports.gargoyle_reexports_scm_is_true_run World τ b).2 ∧
      Reexports.gargoyle_reexports_scm_is_false_run World σ b =
        (σ, Reexports.gargoyle_reexports_scm_is_false b) ∧
      (Reexports.gargoyle_reexports_scm_is_false_run World σ b).2 =
        (Reexports.gargoyle_reexports_scm_is_false_run World τ b).2 ∧
      Reexports.GARGOYLE_REEXPORTS_SCM_UNBNDP_run World σ b =
        (σ, Reexports.GARGOYLE_REEXPORTS_SCM_UNBNDP b) ∧
      (Reexports.GARGOYLE_REEXPORTS_SCM_UNBNDP_run World σ b).2 =
        (Reexports.GARGOYLE_REEXPORTS_SCM_UNBNDP_run World τ b).2 :=
  fun _ _ _ _ => ⟨rfl, rfl, rfl, rfl, rfl, rfl⟩

/-- C9: for every tagged value, the truthiness wrapper is nonzero exactly
when the falsity wrapper is zero, and the falsity wrapper is nonzero
exactly on the exported false constant. -/
theorem truthiness_complement :
    ∀ b, (Reexports.gargoyle_reexports_scm_is_true b ≠ 0 ↔
            Reexports.gargoyle_reexports_scm_is_false b = 0) ∧
         (Reexports.gargoyle_reexports_scm_is_false b ≠ 0 ↔
            b = Reexports.GARGOYLE_REEXPORTS_SCM_BOOL_F) := by
  intro b
  unfold Reexports.gargoyle_reexports_scm_is_true
    Reexports.gargoyle_reexports_scm_is_false
    Reexports.GARGOYLE_REEXPORTS_SCM_BOOL_F scm_is_true scm_is_false
  by_cases h : b = SCM_BOOL_F <;> simp [h]

/-- C10: the exported empty-list constant is truthy at this interface: the
truthiness wrapper returns nonzero on it and the falsity wrapper returns
zero on it. -/
theorem eol_truthy :
    Reexports.gargoyle_reexports_scm_is_true Reexports.GARGOYLE_REEXPORTS_SCM_EOL ≠ 0 ∧
    Reexports.gargoyle_reexports_scm_is_false Reexports.GARGOYLE_REEXPORTS_SCM_EOL = 0 := by
  decide

end Gargoyle
